import Mathlib

/-!
Verification of the MeloTTS-Render HTTP service (`src/main.py`).

The program keeps two module-level globals, `model_instance` (an optional
model handle) and `loading_error` (an optional error string), written only by
the startup hook `load_model`.  Two request handlers read them: `read_root`
(GET /) and `generate_speech` (POST /tts).  We embed the globals as a
structure, the handlers as pure functions that also return the (unchanged)
globals and a trace of the calls made to the external synthesis and
WAV-encoding libraries, and the startup hook as a function of the outcome of
the external model constructor.

Python truthiness matters in two places: `if loading_error:` is true exactly
when the string is set and non-empty, and `if not model_instance:` /
`if not request.text:` test for `None` / the empty string respectively.
-/

/-- Python truthiness of an optional string: `None` and `""` are falsy. -/
def pyTruthyStr : Option String → Bool
  | none => false
  | some s => s ≠ ""

/-- Abstraction of the NumPy sample array returned by `synthesize`. -/
abbrev AudioData := List Int

/-- `model_instance.hps.data` — only `sampling_rate` is read by the code. -/
structure HpsData where
  sampling_rate : Nat

/-- `model_instance.hps`. -/
structure Hps where
  data : HpsData

/-- The external model handle: its hyperparameters and its `synthesize`
method `(text, voice_name) → samples`, which may raise (modelled as
`Except` carrying the exception's message). -/
structure ModelHandle where
  hps : Hps
  synthesize : String → String → Except String AudioData

/-- The module-level globals of `main.py`:
`model_instance = None` and `loading_error = None` initially. -/
structure Globals where
  model_instance : Option ModelHandle
  loading_error : Option String

/-- The initial globals, before the startup hook runs. -/
def initialGlobals : Globals := { model_instance := none, loading_error := none }

/-- The abstract service state of the spec, derived from the globals the way
the request handlers inspect them: a truthy `loading_error` means `Failed`,
otherwise a present `model_instance` means `Ready`, otherwise the model is
still loading.  (`Uninitialized` and `Loading` are indistinguishable to the
code; the fresh globals register as `Loading`.) -/
inductive ServiceState where
  | Uninitialized
  | Loading
  | Ready (handle : ModelHandle)
  | Failed (message : String)

/-- Derive the spec's `currentState()` from the globals. -/
def stateOf (g : Globals) : ServiceState :=
  if pyTruthyStr g.loading_error then
    ServiceState.Failed (g.loading_error.getD "")
  else
    match g.model_instance with
    | some h => ServiceState.Ready h
    | none => ServiceState.Loading

/-- The request body of POST /tts (`class TTSRequest`), with the default
voice `"EN-US"` already applied by pydantic. -/
structure TTSRequest where
  text : String
  voice_name : String

/-- An HTTP response as produced by the handlers: a JSON status body
(implicit 200), a raised `HTTPException` with status code and detail, or a
binary `Response` with a media type. -/
inductive HttpResp where
  | json (status : String) (message : String)
  | httpError (status_code : Nat) (detail : String)
  | audio (content : List Nat) (media_type : String)

/-- The HTTP status code of a response; JSON and audio bodies are 200. -/
def HttpResp.statusCode : HttpResp → Nat
  | .json _ _ => 200
  | .httpError c _ => c
  | .audio _ _ => 200

/-- `load_model` (the `@app.on_event("startup")` hook): picks a device,
calls the external constructor `TTS(language='en', device=device)`, stores
the handle on success, and on any exception stores
`f"Failed to load MeloTTS model: {e}"` in `loading_error` and returns
normally.  The constructor is passed in as `ctor (language) (device)`. -/
def load_model (g : Globals) (cuda_available : Bool)
    (ctor : String → String → Except String ModelHandle) : Globals :=
  let device := if cuda_available then "cuda" else "cpu"
  match ctor "en" device with
  | .ok h => { g with model_instance := some h }
  | .error e =>
      { g with loading_error := some ("Failed to load MeloTTS model: " ++ e) }

/-- `read_root` (GET /): returns the status payload and the globals after
the request (the handler performs no writes, so they are returned as-is). -/
def read_root (g : Globals) : HttpResp × Globals :=
  if pyTruthyStr g.loading_error then
    (HttpResp.json "error"
      ("API is running but model failed to load: " ++ g.loading_error.getD ""),
     g)
  else
    match g.model_instance with
    | none =>
        (HttpResp.json "loading"
          "MeloTTS model is still loading or failed to load. Please try again shortly.",
         g)
    | some _ =>
        (HttpResp.json "ready" "MeloTTS API is running and model is loaded.", g)

/-- Outcome of one `generate_speech` invocation: the response, the arguments
of every call made to `model_instance.synthesize` and to `sf.write`, and the
globals after the request. -/
structure TtsResult where
  resp : HttpResp
  synth_calls : List (String × String)
  write_calls : List (AudioData × Nat × String)
  globals : Globals

/-- `generate_speech` (POST /tts).  Checks, in order: truthy `loading_error`
(503 with the captured message), missing `model_instance` (503 generic),
empty `text` (400).  Then, inside the `try` block, calls
`model_instance.synthesize(request.text, request.voice_name)` and
`sf.write(buffer, audio, model_instance.hps.data.sampling_rate, format='WAV')`
(the encoder `sf` is passed in, returning the buffer's bytes or raising);
any exception is caught and mapped to
`HTTPException(500, f"TTS generation failed: {e}. Check server logs for details.")`. -/
def generate_speech (g : Globals) (request : TTSRequest)
    (sf : AudioData → Nat → String → Except String (List Nat)) : TtsResult :=
  if pyTruthyStr g.loading_error then
    { resp := HttpResp.httpError 503
        ("Service Unavailable: Model failed to load: " ++ g.loading_error.getD ""),
      synth_calls := [], write_calls := [], globals := g }
  else
    match g.model_instance with
    | none =>
        { resp := HttpResp.httpError 503
            "Service Unavailable: MeloTTS model is still loading. Please try again shortly.",
          synth_calls := [], write_calls := [], globals := g }
    | some m =>
        if request.text = "" then
          { resp := HttpResp.httpError 400 "Text input is required.",
            synth_calls := [], write_calls := [], globals := g }
        else
          match m.synthesize request.text request.voice_name with
          | .error e =>
              { resp := HttpResp.httpError 500
                  ("TTS generation failed: " ++ e ++ ". Check server logs for details."),
                synth_calls := [(request.text, request.voice_name)],
                write_calls := [], globals := g }
          | .ok audio_data_np =>
              match sf audio_data_np m.hps.data.sampling_rate "WAV" with
              | .error e =>
                  { resp := HttpResp.httpError 500
                      ("TTS generation failed: " ++ e ++ ". Check server logs for details."),
                    synth_calls := [(request.text, request.voice_name)],
                    write_calls := [(audio_data_np, m.hps.data.sampling_rate, "WAV")],
                    globals := g }
              | .ok bytes =>
                  { resp := HttpResp.audio bytes "audio/wav",
                    synth_calls := [(request.text, request.voice_name)],
                    write_calls := [(audio_data_np, m.hps.data.sampling_rate, "WAV")],
                    globals := g }

/-! ### Helper lemmas relating `stateOf` to the globals -/

/-- The derived state is `Ready h` exactly when no truthy loading error is
stored and the model handle is present. -/
theorem stateOf_Ready_iff (g : Globals) (h : ModelHandle) :
    stateOf g = ServiceState.Ready h ↔
      pyTruthyStr g.loading_error = false ∧ g.model_instance = some h := by
  unfold stateOf
  cases hb : pyTruthyStr g.loading_error
  · cases hm : g.model_instance <;> simp [hb, hm]
  · simp [hb]

/-- The derived state is `Failed m` exactly when a truthy loading error equal
to `m` is stored. -/
theorem stateOf_Failed_iff (g : Globals) (m : String) :
    stateOf g = ServiceState.Failed m ↔
      pyTruthyStr g.loading_error = true ∧ g.loading_error.getD "" = m := by
  unfold stateOf
  cases hb : pyTruthyStr g.loading_error
  · cases hm : g.model_instance <;> simp [hb, hm]
  · simp [hb, eq_comm]

/-- A message stored by `load_model` is never empty: it starts with the
fixed prefix `"Failed to load MeloTTS model: "`. -/
theorem load_message_ne_empty (e : String) :
    ("Failed to load MeloTTS model: " ++ e) ≠ "" := by
  intro h
  have hl := congrArg String.length h
  simp [String.length_append] at hl
  exact absurd hl.1 (by decide)

/-! ### Concrete fixtures for witnesses and counterexamples -/

/-- A model handle whose synthesis succeeds with a fixed sample sequence. -/
def demoHandle : ModelHandle :=
  { hps := { data := { sampling_rate := 44100 } },
    synthesize := fun _ _ => Except.ok [0, 1, 2] }

/-- A model handle whose synthesis raises. -/
def failHandle : ModelHandle :=
  { hps := { data := { sampling_rate := 22050 } },
    synthesize := fun _ _ => Except.error "synth boom" }

/-- Globals after a failed load that captured the message `"boom"`. -/
def gFailBoom : Globals := { model_instance := none, loading_error := some "boom" }

/-- Globals with both a loading error and a model handle present. -/
def gFailWithModel : Globals :=
  { model_instance := some demoHandle, loading_error := some "boom" }

/-- Globals after a successful load of `demoHandle`. -/
def gReadyDemo : Globals := { model_instance := some demoHandle, loading_error := none }

/-- Globals after a successful load of the raising handle. -/
def gReadyFail : Globals := { model_instance := some failHandle, loading_error := none }

/-- A well-formed request. -/
def reqHello : TTSRequest := { text := "Hello world", voice_name := "EN-US" }

/-- A request with empty text. -/
def reqEmpty : TTSRequest := { text := "", voice_name := "EN-US" }

/-- A request whose text is a single space (non-empty but whitespace-only). -/
def reqSpace : TTSRequest := { text := " ", voice_name := "EN-US" }

/-- An encoder stand-in that succeeds with fixed bytes. -/
def sfDemo : AudioData → Nat → String → Except String (List Nat) :=
  fun _ _ _ => Except.ok [82, 73, 70, 70]

/-- An encoder stand-in that raises. -/
def sfFail : AudioData → Nat → String → Except String (List Nat) :=
  fun _ _ _ => Except.error "write boom"

/-- The derived state is `Loading` exactly when no truthy loading error is
stored and no model handle is present. -/
theorem stateOf_Loading_iff (g : Globals) :
    stateOf g = ServiceState.Loading ↔
      pyTruthyStr g.loading_error = false ∧ g.model_instance = none := by
  unfold stateOf
  cases hb : pyTruthyStr g.loading_error
  · cases hm : g.model_instance <;> simp [hb, hm]
  · simp [hb]

/-- The code cannot observe the `Uninitialized` state separately: the derived
state is never `Uninitialized` (the fresh globals register as `Loading`). -/
theorem stateOf_ne_Uninitialized (g : Globals) :
    stateOf g ≠ ServiceState.Uninitialized := by
  unfold stateOf
  cases hb : pyTruthyStr g.loading_error
  · cases hm : g.model_instance <;> simp [hb, hm]
  · simp [hb]

/-- A failing stand-in for the external model constructor. -/
def ctorFail : String → String → Except String ModelHandle :=
  fun _ _ => Except.error "boom"

/-! ### Claims -/

/-- Claim C1: the /tts handler checks its preconditions in a fixed order and
the first failing check short-circuits the rest: (1) a truthy `loading_error`
yields 503 carrying the captured message and no synthesis call; (2) otherwise
a missing `model_instance` yields the generic still-loading 503 and no
synthesis call; (3) otherwise empty `text` yields 400 and no synthesis call;
and when all three checks pass, synthesis is invoked (exactly once, with the
request's text and voice name). -/
theorem spec_C1 (g : Globals) (request : TTSRequest)
    (sf : AudioData → Nat → String → Except String (List Nat)) :
    (pyTruthyStr g.loading_error = true →
      (generate_speech g request sf).resp =
        HttpResp.httpError 503
          ("Service Unavailable: Model failed to load: " ++ g.loading_error.getD "") ∧
      (generate_speech g request sf).synth_calls = []) ∧
    (pyTruthyStr g.loading_error = false → g.model_instance = none →
      (generate_speech g request sf).resp =
        HttpResp.httpError 503
          "Service Unavailable: MeloTTS model is still loading. Please try again shortly." ∧
      (generate_speech g request sf).synth_calls = []) ∧
    (∀ m, pyTruthyStr g.loading_error = false → g.model_instance = some m →
      request.text = "" →
      (generate_speech g request sf).resp =
        HttpResp.httpError 400 "Text input is required." ∧
      (generate_speech g request sf).synth_calls = []) ∧
    (∀ m, pyTruthyStr g.loading_error = false → g.model_instance = some m →
      request.text ≠ "" →
      (generate_speech g request sf).synth_calls = [(request.text, request.voice_name)]) := by
  refine ⟨?_, ?_, ?_, ?_⟩
  · intro hb
    simp [generate_speech, hb]
  · intro hb hm
    simp [generate_speech, hb, hm]
  · intro m hb hm ht
    simp [generate_speech, hb, hm, ht]
  · intro m hb hm ht
    simp only [generate_speech, hb, hm, Bool.false_eq_true, if_false, if_neg ht]
    cases hs : m.synthesize request.text request.voice_name with
    | error e => rfl
    | ok a =>
        cases hw : sf a m.hps.data.sampling_rate "WAV" <;> simp [hw]

/-- Claim C1, witnessed on globals holding a captured failure message. -/
theorem spec_C1_witness :
    (generate_speech gFailBoom reqHello sfDemo).resp =
      HttpResp.httpError 503
        ("Service Unavailable: Model failed to load: " ++ gFailBoom.loading_error.getD "") ∧
    (generate_speech gFailBoom reqHello sfDemo).synth_calls = [] :=
  (spec_C1 gFailBoom reqHello sfDemo).1 rfl

/-- Claim C2 counterexample: with a captured loading error (state `Failed`)
and empty text, the /tts response is 503, not 400 — the state checks run
before the empty-text check, so "400 regardless of model state" is false. -/
theorem spec_C2_cex :
    (generate_speech gFailBoom reqEmpty sfDemo).resp.statusCode = 503 ∧
    (generate_speech gFailBoom reqEmpty sfDemo).resp.statusCode ≠ 400 := by
  constructor
  · rfl
  · decide

/-- Claim C2 as amended: for a /tts request with empty text, the response is
400 when the service state is `Ready`; in any other state the earlier state
checks fire first and the response is 503. -/
theorem spec_C2_amended (g : Globals) (request : TTSRequest)
    (sf : AudioData → Nat → String → Except String (List Nat))
    (ht : request.text = "") :
    (∀ m, stateOf g = ServiceState.Ready m →
      (generate_speech g request sf).resp =
        HttpResp.httpError 400 "Text input is required.") ∧
    ((∀ m, stateOf g ≠ ServiceState.Ready m) →
      (generate_speech g request sf).resp.statusCode = 503) := by
  constructor
  · intro m hr
    rw [stateOf_Ready_iff] at hr
    simp [generate_speech, hr.1, hr.2, ht]
  · intro hnr
    cases hb : pyTruthyStr g.loading_error
    · cases hm : g.model_instance with
      | none => simp [generate_speech, hb, hm, HttpResp.statusCode]
      | some m =>
          exact absurd ((stateOf_Ready_iff g m).mpr ⟨hb, hm⟩) (hnr m)
    · simp [generate_speech, hb, HttpResp.statusCode]

/-- Claim C2 amended, witnessed: in the `Ready` state an empty-text request
gets 400. -/
theorem spec_C2_witness :
    (generate_speech gReadyDemo reqEmpty sfDemo).resp =
      HttpResp.httpError 400 "Text input is required." :=
  (spec_C2_amended gReadyDemo reqEmpty sfDemo rfl).1 demoHandle rfl

/-- Claim C3: the GET / status payload is determined purely by the derived
service state: `Failed m` gives an "error" body whose message contains `m`;
`Uninitialized` or `Loading` gives the "loading" body; `Ready` gives the
"ready" body. -/
theorem spec_C3 (g : Globals) :
    (∀ m, stateOf g = ServiceState.Failed m →
      ∃ msg, (read_root g).1 = HttpResp.json "error" msg ∧ ∃ p, msg = p ++ m) ∧
    ((stateOf g = ServiceState.Uninitialized ∨ stateOf g = ServiceState.Loading) →
      (read_root g).1 = HttpResp.json "loading"
        "MeloTTS model is still loading or failed to load. Please try again shortly.") ∧
    (∀ h, stateOf g = ServiceState.Ready h →
      (read_root g).1 = HttpResp.json "ready"
        "MeloTTS API is running and model is loaded.") := by
  refine ⟨?_, ?_, ?_⟩
  · intro m hf
    rw [stateOf_Failed_iff] at hf
    refine ⟨"API is running but model failed to load: " ++ m,
      ?_, "API is running but model failed to load: ", rfl⟩
    simp [read_root, hf.1, hf.2]
  · intro hl
    rcases hl with hu | hl
    · exact absurd hu (stateOf_ne_Uninitialized g)
    · rw [stateOf_Loading_iff] at hl
      simp [read_root, hl.1, hl.2]
  · intro h hr
    rw [stateOf_Ready_iff] at hr
    simp [read_root, hr.1, hr.2]

/-- Claim C3, witnessed on a `Failed "boom"` state. -/
theorem spec_C3_witness :
    ∃ msg, (read_root gFailBoom).1 = HttpResp.json "error" msg ∧
      ∃ p, msg = p ++ "boom" :=
  (spec_C3 gFailBoom).1 "boom" rfl

/-- Claim C4: in the `Ready` state, with non-empty text, every exception from
the synthesis call or the WAV-encoding step is caught and mapped to a 500
response whose detail string contains the exception's message; the handler
always returns a response (the embedding is a total function, so nothing
escapes unmapped). -/
theorem spec_C4 (g : Globals) (request : TTSRequest) (m : ModelHandle)
    (sf : AudioData → Nat → String → Except String (List Nat))
    (hready : stateOf g = ServiceState.Ready m) (ht : request.text ≠ "") :
    (∀ e, m.synthesize request.text request.voice_name = Except.error e →
      (generate_speech g request sf).resp =
        HttpResp.httpError 500
          ("TTS generation failed: " ++ e ++ ". Check server logs for details.")) ∧
    (∀ audio e, m.synthesize request.text request.voice_name = Except.ok audio →
      sf audio m.hps.data.sampling_rate "WAV" = Except.error e →
      (generate_speech g request sf).resp =
        HttpResp.httpError 500
          ("TTS generation failed: " ++ e ++ ". Check server logs for details.")) := by
  rw [stateOf_Ready_iff] at hready
  constructor
  · intro e he
    simp [generate_speech, hready.1, hready.2, ht, he]
  · intro audio e ha he
    simp [generate_speech, hready.1, hready.2, ht, ha, he]

/-- Claim C4, witnessed on a handle whose synthesis raises `"synth boom"`. -/
theorem spec_C4_witness :
    (generate_speech gReadyFail reqHello sfDemo).resp =
      HttpResp.httpError 500
        ("TTS generation failed: " ++ "synth boom" ++ ". Check server logs for details.") :=
  (spec_C4 gReadyFail reqHello failHandle sfDemo rfl (by decide)).1 "synth boom" rfl

/-- Claim C5: the startup routine is a total function of the constructor's
outcome (it returns normally on every outcome, never propagating an
exception); when the external constructor raises with message `e`, the state
transitions to `Failed` capturing `e` in the stored message, and when it
succeeds with handle `h`, the state transitions to `Ready h`. -/
theorem spec_C5 (cuda_available : Bool)
    (ctor : String → String → Except String ModelHandle) :
    (∀ e, ctor "en" (if cuda_available then "cuda" else "cpu") = Except.error e →
      stateOf (load_model initialGlobals cuda_available ctor) =
        ServiceState.Failed ("Failed to load MeloTTS model: " ++ e)) ∧
    (∀ h, ctor "en" (if cuda_available then "cuda" else "cpu") = Except.ok h →
      stateOf (load_model initialGlobals cuda_available ctor) =
        ServiceState.Ready h) := by
  constructor
  · intro e he
    rw [stateOf_Failed_iff]
    unfold load_model
    simp only [he]
    refine ⟨?_, rfl⟩
    simp [pyTruthyStr, load_message_ne_empty e]
  · intro h hh
    rw [stateOf_Ready_iff]
    unfold load_model
    simp [hh, initialGlobals, pyTruthyStr]

/-- Claim C5, witnessed on a constructor that raises `"boom"`. -/
theorem spec_C5_witness :
    stateOf (load_model initialGlobals false ctorFail) =
      ServiceState.Failed ("Failed to load MeloTTS model: " ++ "boom") :=
  (spec_C5 false ctorFail).1 "boom" rfl

/-- Claim C6: in the `Ready` state, with non-empty text and both external
calls succeeding, the response is a 200 `audio/wav` body equal to the bytes
produced by WAV-encoding the synthesized samples, and the encoder is invoked
exactly once, at the handle's configured `hps.data.sampling_rate`, with
format `"WAV"`. -/
theorem spec_C6 (g : Globals) (request : TTSRequest) (m : ModelHandle)
    (sf : AudioData → Nat → String → Except String (List Nat))
    (audio : AudioData) (bytes : List Nat)
    (hready : stateOf g = ServiceState.Ready m) (ht : request.text ≠ "")
    (hs : m.synthesize request.text request.voice_name = Except.ok audio)
    (hw : sf audio m.hps.data.sampling_rate "WAV" = Except.ok bytes) :
    (generate_speech g request sf).resp = HttpResp.audio bytes "audio/wav" ∧
    (generate_speech g request sf).resp.statusCode = 200 ∧
    (generate_speech g request sf).write_calls =
      [(audio, m.hps.data.sampling_rate, "WAV")] := by
  rw [stateOf_Ready_iff] at hready
  refine ⟨?_, ?_, ?_⟩ <;>
    simp [generate_speech, hready.1, hready.2, ht, hs, hw, HttpResp.statusCode]

/-- Claim C6, witnessed on the demo handle and succeeding encoder. -/
theorem spec_C6_witness :
    (generate_speech gReadyDemo reqHello sfDemo).resp =
      HttpResp.audio [82, 73, 70, 70] "audio/wav" ∧
    (generate_speech gReadyDemo reqHello sfDemo).resp.statusCode = 200 ∧
    (generate_speech gReadyDemo reqHello sfDemo).write_calls =
      [([0, 1, 2], demoHandle.hps.data.sampling_rate, "WAV")] :=
  spec_C6 gReadyDemo reqHello demoHandle sfDemo [0, 1, 2] [82, 73, 70, 70]
    rfl (by decide) rfl rfl

/-- Claim C7: neither handler mutates the globals — on every execution,
including ones where synthesis or encoding raises, the globals after the
request equal the globals before, so the derived service state is unchanged
(a `Ready` state remains `Ready`, a `Failed` one remains `Failed`). -/
theorem spec_C7 (g : Globals) (request : TTSRequest)
    (sf : AudioData → Nat → String → Except String (List Nat)) :
    (generate_speech g request sf).globals = g ∧
    (read_root g).2 = g ∧
    stateOf (generate_speech g request sf).globals = stateOf g ∧
    stateOf (read_root g).2 = stateOf g := by
  have h1 : (generate_speech g request sf).globals = g := by
    unfold generate_speech
    split
    · rfl
    · split
      · rfl
      · split
        · rfl
        · split
          · rfl
          · split <;> rfl
  have h2 : (read_root g).2 = g := by
    unfold read_root
    split
    · rfl
    · split <;> rfl
  exact ⟨h1, h2, by rw [h1], by rw [h2]⟩

/-- Claim C8: the status endpoint never fails — for every globals value it
returns a JSON `{status, message}` payload with status code 200, and leaves
the globals untouched (the embedding is total, so no exception is raised). -/
theorem spec_C8 (g : Globals) :
    (∃ s msg, (read_root g).1 = HttpResp.json s msg) ∧
    (read_root g).1.statusCode = 200 ∧
    (read_root g).2 = g := by
  refine ⟨?_, ?_, ?_⟩
  · unfold read_root
    split
    · exact ⟨_, _, rfl⟩
    · split <;> exact ⟨_, _, rfl⟩
  · unfold read_root
    split
    · rfl
    · split <;> rfl
  · unfold read_root
    split
    · rfl
    · split <;> rfl

/-- Claim C9: in the `Ready` state, the 400 invalid-request response fires
exactly when the text is the empty string, and every non-empty text —
whitespace included — is forwarded verbatim (with the voice name) to the
synthesis call. -/
theorem spec_C9 (g : Globals) (request : TTSRequest) (m : ModelHandle)
    (sf : AudioData → Nat → String → Except String (List Nat))
    (hready : stateOf g = ServiceState.Ready m) :
    ((generate_speech g request sf).resp.statusCode = 400 ↔ request.text = "") ∧
    (request.text ≠ "" →
      (generate_speech g request sf).synth_calls =
        [(request.text, request.voice_name)]) := by
  rw [stateOf_Ready_iff] at hready
  constructor
  · constructor
    · intro h4
      by_contra ht
      simp only [generate_speech] at h4
      simp [hready.1, hready.2, ht] at h4
      cases hs : m.synthesize request.text request.voice_name with
      | error e => simp [hs, HttpResp.statusCode] at h4
      | ok a =>
          cases hw : sf a m.hps.data.sampling_rate "WAV" <;>
            simp [hs, hw, HttpResp.statusCode] at h4
    · intro ht
      simp [generate_speech, hready.1, hready.2, ht, HttpResp.statusCode]
  · intro ht
    simp only [generate_speech, hready.1, hready.2, Bool.false_eq_true, if_false,
      if_neg ht]
    cases hs : m.synthesize request.text request.voice_name with
    | error e => rfl
    | ok a => cases hw : sf a m.hps.data.sampling_rate "WAV" <;> simp [hw]

/-- Claim C9, witnessed: a whitespace-only text passes the check and is
forwarded verbatim to synthesis. -/
theorem spec_C9_witness :
    (" " : String) ≠ "" ∧
    (generate_speech gReadyDemo reqSpace sfDemo).synth_calls = [(" ", "EN-US")] :=
  ⟨by decide, (spec_C9 gReadyDemo reqSpace demoHandle sfDemo rfl).2 (by decide)⟩

/-- Claim C10: a truthy stored loading error takes precedence over a present
model handle — GET / reports the error payload and POST /tts responds 503
with the captured message, regardless of `model_instance`, and the handle is
never consulted (no synthesis call is made). -/
theorem spec_C10 (g : Globals) (request : TTSRequest)
    (sf : AudioData → Nat → String → Except String (List Nat))
    (hfail : pyTruthyStr g.loading_error = true) :
    (read_root g).1 = HttpResp.json "error"
        ("API is running but model failed to load: " ++ g.loading_error.getD "") ∧
    (generate_speech g request sf).resp = HttpResp.httpError 503
        ("Service Unavailable: Model failed to load: " ++ g.loading_error.getD "") ∧
    (generate_speech g request sf).synth_calls = [] := by
  refine ⟨?_, ?_, ?_⟩ <;> simp [read_root, generate_speech, hfail]

/-- Claim C10, witnessed on globals holding both a loading error and a model
handle. -/
theorem spec_C10_witness :
    gFailWithModel.model_instance = some demoHandle ∧
    (read_root gFailWithModel).1 = HttpResp.json "error"
        ("API is running but model failed to load: " ++
          gFailWithModel.loading_error.getD "") ∧
    (generate_speech gFailWithModel reqHello sfDemo).resp = HttpResp.httpError 503
        ("Service Unavailable: Model failed to load: " ++
          gFailWithModel.loading_error.getD "") ∧
    (generate_speech gFailWithModel reqHello sfDemo).synth_calls = [] :=
  ⟨rfl, (spec_C10 gFailWithModel reqHello sfDemo rfl).1,
    (spec_C10 gFailWithModel reqHello sfDemo rfl).2.1,
    (spec_C10 gFailWithModel reqHello sfDemo rfl).2.2⟩
